import Mathlib

/-!
Verification of the `claudesk` launcher (`src/claudesk/cli.py`).

The launcher resolves the project root from its own file location, builds a
`bun run [--watch] <root>/src/server.ts` command, and runs it synchronously
with the working directory set to the root, swallowing a `KeyboardInterrupt`
raised during the blocking wait.

Embedding choices:
- A filesystem path is a list of name components; an absolute path string is
  rendered by joining the components with `/` after a leading `/`.
- `Path(__file__)` may in principle be relative, so the launcher file is a
  `PyPath`: a components list plus an absoluteness flag; `Path.resolve`
  prepends the current working directory when the path is relative.
- Exceptions are the `Exc` type; `main` returns `Except Exc Unit` together
  with the list of spawn calls it performed (the trace), so "exactly one
  spawn" and "no retry" are statable.
- `KeyboardInterrupt` is asynchronous: the environment records whether one
  fires during root resolution, during command construction, or is reported
  by the spawn call itself, matching the three program points of `main`.
- The environment also carries a set of filesystem paths and a process
  environment; `main` never reads them, which is exactly the source's
  behavior (its only external interaction is the spawn call).
-/

namespace Claudesk

/-- A path string rendered from components, as `str(Path(...))` renders an
absolute path: a leading slash then slash-separated components. -/
def pathStr (comps : List String) : String :=
  "/" ++ String.intercalate "/" comps

/-- A Python `pathlib.Path`: components plus whether it is absolute. -/
structure PyPath where
  absolute : Bool
  comps : List String
deriving DecidableEq, Repr

/-- `Path.resolve()`: an absolute path is already canonical; a relative one
is interpreted against the current working directory. -/
def resolve (cwd : List String) (p : PyPath) : List String :=
  if p.absolute then p.comps else cwd ++ p.comps

/-- `Path.parent`: drop the last component. -/
def parent (p : List String) : List String :=
  p.dropLast

/-- Embeds `_root` from `cli.py`:
`return Path(__file__).resolve().parent.parent`. -/
def resolveRoot (cwd : List String) (file : PyPath) : List String :=
  parent (parent (resolve cwd file))

/-- `str(root / "src" / "server.ts")`: the absolute script path. -/
def scriptPath (root : List String) : String :=
  pathStr (root ++ ["src", "server.ts"])

/-- A Python exception: `KeyboardInterrupt` or any other, identified by its
class name (e.g. `"FileNotFoundError"` from a failed spawn). -/
inductive Exc where
  | keyboardInterrupt : Exc
  | other : String → Exc
deriving DecidableEq, Repr

/-- Outcome of one `subprocess.run` call: the child exits with a status
code, or the call raises an exception (a `KeyboardInterrupt` delivered
during the blocking wait, or a spawn failure such as `FileNotFoundError`). -/
inductive SpawnOutcome where
  | exits : Int → SpawnOutcome
  | raised : Exc → SpawnOutcome
deriving DecidableEq, Repr

/-- One call to `subprocess.run`: the command list and the working
directory passed as `cwd=`. -/
structure SpawnCall where
  cmd : List String
  cwd : List String
deriving DecidableEq, Repr

/-- The environment of one invocation of `main`: the process argument list,
the launcher file's own path, the caller's working directory, the ambient
filesystem and process environment (never read by `main`), the points where
an asynchronous `KeyboardInterrupt` fires, and the behavior of
`subprocess.run`. -/
structure Env where
  argv : List String
  file : PyPath
  cwd : List String
  fsFiles : List String
  osEnviron : List (String × String)
  intrAtRoot : Bool
  intrAtBuild : Bool
  spawn : SpawnCall → SpawnOutcome

/-- Embeds the command construction of `main` (`cli.py` lines 15-18):
`cmd = ["bun", "run"]; if dev: cmd.append("--watch");
cmd.append(str(root / "src" / "server.ts"))`. -/
def buildCmd (dev : Bool) (root : List String) : List String :=
  let cmd := ["bun", "run"]
  let cmd := if dev then cmd ++ ["--watch"] else cmd
  cmd ++ [scriptPath root]

/-- The single spawn call `main` performs, as a function of the inputs that
determine it: the argument list, the working directory and the launcher
file location. -/
def theCall (argv : List String) (cwd : List String) (file : PyPath) : SpawnCall :=
  let root := resolveRoot cwd file
  ⟨buildCmd (decide ("--dev" ∈ argv)) root, root⟩

/-- Embeds `main` from `cli.py`. The result is the `Except` outcome of the
call (`.ok ()` for a normal `None` return, `.error e` for an uncaught
exception `e`) together with the trace of spawn calls performed.
`dev = "--dev" in sys.argv` is computed first; `_root()` and the command
construction run outside the `try`, so a `KeyboardInterrupt` firing there
propagates; the `try` block wraps only `subprocess.run(cmd, cwd=root)` and
its `except KeyboardInterrupt: pass` discards exactly that exception. -/
def main (env : Env) : Except Exc Unit × List SpawnCall :=
  let dev := decide ("--dev" ∈ env.argv)
  if env.intrAtRoot then (.error .keyboardInterrupt, [])
  else
    let root := resolveRoot env.cwd env.file
    if env.intrAtBuild then (.error .keyboardInterrupt, [])
    else
      let cmd := buildCmd dev root
      let call : SpawnCall := ⟨cmd, root⟩
      match env.spawn call with
      | .exits _ => (.ok (), [call])
      | .raised .keyboardInterrupt => (.ok (), [call])
      | .raised (.other s) => (.error (.other s), [call])

/-- Helper: on a run with no pre-spawn interrupt, `main` reduces to a match
on the outcome of the single spawn call. -/
theorem main_eq (env : Env) (h1 : env.intrAtRoot = false)
    (h2 : env.intrAtBuild = false) :
    main env =
      match env.spawn (theCall env.argv env.cwd env.file) with
      | .exits _ => (.ok (), [theCall env.argv env.cwd env.file])
      | .raised .keyboardInterrupt => (.ok (), [theCall env.argv env.cwd env.file])
      | .raised (.other s) => (.error (.other s), [theCall env.argv env.cwd env.file]) := by
  simp only [main, theCall, h1, h2, Bool.false_eq_true, if_false]

/-- Helper: on a run with no pre-spawn interrupt, the spawn trace consists
of exactly the one call `theCall`. -/
theorem main_trace (env : Env) (h1 : env.intrAtRoot = false)
    (h2 : env.intrAtBuild = false) :
    (main env).2 = [theCall env.argv env.cwd env.file] := by
  rw [main_eq env h1 h2]
  split <;> rfl

/-- C1: the built command is exactly `["bun", "run", <root>/src/server.ts]`
when `"--dev"` is not in the argument list, and exactly
`["bun", "run", "--watch", <root>/src/server.ts]` when it is; the last
element is always the absolute script path under the resolved root. -/
theorem cmd_built_exactly (argv : List String) (cwd : List String) (file : PyPath) :
    (theCall argv cwd file).cmd =
      (if "--dev" ∈ argv then
        ["bun", "run", "--watch", scriptPath (resolveRoot cwd file)]
      else
        ["bun", "run", scriptPath (resolveRoot cwd file)]) ∧
    (theCall argv cwd file).cmd.getLast? =
      some (scriptPath (resolveRoot cwd file)) := by
  by_cases h : "--dev" ∈ argv <;>
    simp [theCall, buildCmd, h]

/-- C2: the resolved root is the parent of the parent of the launcher
file's canonical path, and (the file path being absolute) it does not
depend on the caller's working directory. -/
theorem root_two_levels_up (cwd cwd' : List String) (file : PyPath)
    (h : file.absolute = true) :
    resolveRoot cwd file = parent (parent file.comps) ∧
    resolveRoot cwd file = resolveRoot cwd' file := by
  simp [resolveRoot, resolve, h]

/-- Witness for C2 at a concrete launcher file location and two distinct
working directories. -/
theorem root_two_levels_up_witness :
    resolveRoot ["tmp"] ⟨true, ["opt", "claudesk", "claudesk", "cli.py"]⟩ =
      parent (parent ["opt", "claudesk", "claudesk", "cli.py"]) ∧
    resolveRoot ["tmp"] ⟨true, ["opt", "claudesk", "claudesk", "cli.py"]⟩ =
      resolveRoot ["home", "user"] ⟨true, ["opt", "claudesk", "claudesk", "cli.py"]⟩ :=
  root_two_levels_up ["tmp"] ["home", "user"]
    ⟨true, ["opt", "claudesk", "claudesk", "cli.py"]⟩ rfl

/-- C3: a `KeyboardInterrupt` raised by the blocking spawn call is caught
and `main` returns normally; any other exception raised by the spawn call
propagates to the caller unmodified. -/
theorem interrupt_caught_others_propagate (env : Env)
    (h1 : env.intrAtRoot = false) (h2 : env.intrAtBuild = false) :
    (env.spawn (theCall env.argv env.cwd env.file) = .raised .keyboardInterrupt →
      (main env).1 = .ok ()) ∧
    (∀ s, env.spawn (theCall env.argv env.cwd env.file) = .raised (.other s) →
      (main env).1 = .error (.other s)) := by
  refine ⟨fun hs => ?_, fun s hs => ?_⟩ <;> rw [main_eq env h1 h2, hs]

/-- Witness for C3: a concrete environment whose spawn call reports a
`KeyboardInterrupt`; `main` returns normally. -/
theorem interrupt_caught_others_propagate_witness :
    (main ⟨["--dev"], ⟨true, ["opt", "claudesk", "claudesk", "cli.py"]⟩,
      ["home", "user"], [], [], false, false,
      fun _ => .raised .keyboardInterrupt⟩).1 = .ok () :=
  (interrupt_caught_others_propagate
    ⟨["--dev"], ⟨true, ["opt", "claudesk", "claudesk", "cli.py"]⟩,
      ["home", "user"], [], [], false, false,
      fun _ => .raised .keyboardInterrupt⟩ rfl rfl).1 rfl

/-- C4: when the `bun` executable cannot be resolved or started, every
spawn attempt raises a `FileNotFoundError`, so `main` itself ends with that
uncaught error (after having attempted exactly the one spawn). -/
theorem bun_unresolvable_fails (env : Env)
    (h1 : env.intrAtRoot = false) (h2 : env.intrAtBuild = false)
    (h3 : ∀ c, env.spawn c = .raised (.other "FileNotFoundError")) :
    main env = (.error (.other "FileNotFoundError"),
      [theCall env.argv env.cwd env.file]) := by
  rw [main_eq env h1 h2, h3]

/-- Witness for C4: a concrete environment in which every spawn fails with
`FileNotFoundError`; `main` propagates it. -/
theorem bun_unresolvable_fails_witness :
    main ⟨[], ⟨true, ["opt", "claudesk", "claudesk", "cli.py"]⟩,
      ["home", "user"], [], [], false, false,
      fun _ => .raised (.other "FileNotFoundError")⟩ =
    (.error (.other "FileNotFoundError"),
      [theCall [] ["home", "user"] ⟨true, ["opt", "claudesk", "claudesk", "cli.py"]⟩]) :=
  bun_unresolvable_fails
    ⟨[], ⟨true, ["opt", "claudesk", "claudesk", "cli.py"]⟩,
      ["home", "user"], [], [], false, false,
      fun _ => .raised (.other "FileNotFoundError")⟩ rfl rfl (fun _ => rfl)

/-- C5: the spawn call (command and working directory) depends on the
argument list only through membership of the token `"--dev"`: two argument
lists agreeing on that membership yield identical calls. -/
theorem dev_membership_only (e e' : Env)
    (hf : e.file = e'.file) (hc : e.cwd = e'.cwd)
    (hd : ("--dev" ∈ e.argv) ↔ ("--dev" ∈ e'.argv)) :
    theCall e.argv e.cwd e.file = theCall e'.argv e'.cwd e'.file := by
  simp only [theCall, hf, hc, decide_eq_decide.mpr hd]

/-- Witness for C5: `["x", "--dev", "y", "--dev"]` and `["--dev"]` agree on
`"--dev"` membership and build the same call. -/
theorem dev_membership_only_witness :
    theCall ["x", "--dev", "y", "--dev"] ["home", "user"]
      ⟨true, ["opt", "claudesk", "claudesk", "cli.py"]⟩ =
    theCall ["--dev"] ["home", "user"]
      ⟨true, ["opt", "claudesk", "claudesk", "cli.py"]⟩ :=
  dev_membership_only
    ⟨["x", "--dev", "y", "--dev"], ⟨true, ["opt", "claudesk", "claudesk", "cli.py"]⟩,
      ["home", "user"], [], [], false, false, fun _ => .exits 0⟩
    ⟨["--dev"], ⟨true, ["opt", "claudesk", "claudesk", "cli.py"]⟩,
      ["home", "user"], [], [], false, false, fun _ => .exits 1⟩
    rfl rfl (by decide)

/-- C6: `main` never propagates the child's outcome: whatever exit status
the child returns, and also when the wait is interrupted, `main` returns
normally (`None`, no explicit exit code). -/
theorem child_outcome_not_propagated (env : Env)
    (h1 : env.intrAtRoot = false) (h2 : env.intrAtBuild = false) :
    (∀ code, env.spawn (theCall env.argv env.cwd env.file) = .exits code →
      (main env).1 = .ok ()) ∧
    (env.spawn (theCall env.argv env.cwd env.file) = .raised .keyboardInterrupt →
      (main env).1 = .ok ()) := by
  refine ⟨fun code hs => ?_, fun hs => ?_⟩ <;> rw [main_eq env h1 h2, hs]

/-- Witness for C6: a child exiting with nonzero status 7 still yields a
normal return of `main`. -/
theorem child_outcome_not_propagated_witness :
    (main ⟨[], ⟨true, ["opt", "claudesk", "claudesk", "cli.py"]⟩,
      ["home", "user"], [], [], false, false, fun _ => .exits 7⟩).1 = .ok () :=
  (child_outcome_not_propagated
    ⟨[], ⟨true, ["opt", "claudesk", "claudesk", "cli.py"]⟩,
      ["home", "user"], [], [], false, false, fun _ => .exits 7⟩ rfl rfl).1 7 rfl

/-- C7: on any run that reaches the spawn, `main` performs exactly one
spawn call — blocking, with the child's working directory set to the
resolved root — and never a second one, whatever the outcome. -/
theorem one_blocking_spawn (env : Env)
    (h1 : env.intrAtRoot = false) (h2 : env.intrAtBuild = false) :
    (main env).2 = [theCall env.argv env.cwd env.file] ∧
    (theCall env.argv env.cwd env.file).cwd = resolveRoot env.cwd env.file := by
  exact ⟨main_trace env h1 h2, rfl⟩

/-- Witness for C7: exactly one spawn call in a concrete run whose child
fails with exit status 1. -/
theorem one_blocking_spawn_witness :
    (main ⟨["--dev"], ⟨true, ["opt", "claudesk", "claudesk", "cli.py"]⟩,
      ["home", "user"], [], [], false, false, fun _ => .exits 1⟩).2 =
      [theCall ["--dev"] ["home", "user"]
        ⟨true, ["opt", "claudesk", "claudesk", "cli.py"]⟩] ∧
    (theCall ["--dev"] ["home", "user"]
      ⟨true, ["opt", "claudesk", "claudesk", "cli.py"]⟩).cwd =
      resolveRoot ["home", "user"] ⟨true, ["opt", "claudesk", "claudesk", "cli.py"]⟩ :=
  one_blocking_spawn
    ⟨["--dev"], ⟨true, ["opt", "claudesk", "claudesk", "cli.py"]⟩,
      ["home", "user"], [], [], false, false, fun _ => .exits 1⟩ rfl rfl

/-- C8: no filesystem precondition: whatever the filesystem contents (the
environment's `fsFiles`, including a missing `<root>/src/server.ts`), a run
with no pre-spawn interrupt always performs the spawn, and the only error
`main` can end with is one reported by the spawn call itself. -/
theorem no_filesystem_precondition (env : Env)
    (h1 : env.intrAtRoot = false) (h2 : env.intrAtBuild = false) :
    (main env).2 = [theCall env.argv env.cwd env.file] ∧
    (∀ e, (main env).1 = .error e →
      env.spawn (theCall env.argv env.cwd env.file) = .raised e) := by
  refine ⟨main_trace env h1 h2, fun e he => ?_⟩
  rw [main_eq env h1 h2] at he
  cases hs : env.spawn (theCall env.argv env.cwd env.file) with
  | exits c =>
    rw [hs] at he
    simp at he
  | raised ex =>
    cases ex with
    | keyboardInterrupt =>
      rw [hs] at he
      simp at he
    | other s =>
      rw [hs] at he
      simp only [Except.error.injEq] at he
      rw [he]

/-- Witness for C8: with an empty filesystem (no `server.ts` anywhere) the
spawn is still attempted. -/
theorem no_filesystem_precondition_witness :
    (main ⟨[], ⟨true, ["opt", "claudesk", "claudesk", "cli.py"]⟩,
      ["home", "user"], [], [], false, false, fun _ => .exits 0⟩).2 =
      [theCall [] ["home", "user"]
        ⟨true, ["opt", "claudesk", "claudesk", "cli.py"]⟩] :=
  (no_filesystem_precondition
    ⟨[], ⟨true, ["opt", "claudesk", "claudesk", "cli.py"]⟩,
      ["home", "user"], [], [], false, false, fun _ => .exits 0⟩ rfl rfl).1

/-- C9: the interrupt-suppression scope is exactly the spawn call: a
`KeyboardInterrupt` firing during root resolution or during command
construction propagates uncaught out of `main` (with no spawn performed),
while one reported by the spawn call itself is caught and discarded. -/
theorem interrupt_scope_exact (env : Env) :
    (env.intrAtRoot = true → main env = (.error .keyboardInterrupt, [])) ∧
    (env.intrAtRoot = false → env.intrAtBuild = true →
      main env = (.error .keyboardInterrupt, [])) ∧
    (env.intrAtRoot = false → env.intrAtBuild = false →
      env.spawn (theCall env.argv env.cwd env.file) = .raised .keyboardInterrupt →
      main env = (.ok (), [theCall env.argv env.cwd env.file])) := by
  refine ⟨fun h => ?_, fun h1 h2 => ?_, fun h1 h2 hs => ?_⟩
  · simp [main, h]
  · simp [main, h1, h2]
  · rw [main_eq env h1 h2, hs]

/-- Witness for C9: a `KeyboardInterrupt` during root resolution escapes
`main` uncaught and no spawn happens. -/
theorem interrupt_scope_exact_witness :
    main ⟨[], ⟨true, ["opt", "claudesk", "claudesk", "cli.py"]⟩,
      ["home", "user"], [], [], true, false, fun _ => .exits 0⟩ =
    (.error .keyboardInterrupt, []) :=
  (interrupt_scope_exact
    ⟨[], ⟨true, ["opt", "claudesk", "claudesk", "cli.py"]⟩,
      ["home", "user"], [], [], true, false, fun _ => .exits 0⟩).1 rfl

/-- C10: command construction is deterministic: two runs agreeing on the
argument list, the launcher file location and the working directory perform
the same single spawn call (same command, same working directory), even if
they differ in filesystem contents, process environment or spawn
behavior. -/
theorem deterministic_command (e e' : Env)
    (ha : e.argv = e'.argv) (hf : e.file = e'.file) (hc : e.cwd = e'.cwd)
    (h1 : e.intrAtRoot = false) (h2 : e.intrAtBuild = false)
    (h1' : e'.intrAtRoot = false) (h2' : e'.intrAtBuild = false) :
    (main e).2 = (main e').2 ∧
    (main e).2 = [theCall e.argv e.cwd e.file] := by
  refine ⟨?_, main_trace e h1 h2⟩
  rw [main_trace e h1 h2, main_trace e' h1' h2', ha, hf, hc]

/-- Witness for C10: two runs with the same argv, file and cwd but
different filesystem contents, process environment and spawn outcomes
produce identical spawn traces. -/
theorem deterministic_command_witness :
    (main ⟨["--dev"], ⟨true, ["opt", "claudesk", "claudesk", "cli.py"]⟩,
      ["home", "user"], ["opt", "claudesk", "src", "server.ts"],
      [("PATH", "/usr/bin")], false, false, fun _ => .exits 0⟩).2 =
    (main ⟨["--dev"], ⟨true, ["opt", "claudesk", "claudesk", "cli.py"]⟩,
      ["home", "user"], [], [("PATH", "/opt/bin")], false, false,
      fun _ => .raised (.other "FileNotFoundError")⟩).2 :=
  (deterministic_command
    ⟨["--dev"], ⟨true, ["opt", "claudesk", "claudesk", "cli.py"]⟩,
      ["home", "user"], ["opt", "claudesk", "src", "server.ts"],
      [("PATH", "/usr/bin")], false, false, fun _ => .exits 0⟩
    ⟨["--dev"], ⟨true, ["opt", "claudesk", "claudesk", "cli.py"]⟩,
      ["home", "user"], [], [("PATH", "/opt/bin")], false, false,
      fun _ => .raised (.other "FileNotFoundError")⟩
    rfl rfl rfl rfl rfl rfl rfl).1

end Claudesk
